import Mathlib

/-!
# The C producer facade of rocketmq-client-cpp (`src/extern/CProducer.cpp`)

A shallow embedding of the C-callable producer boundary:

* the two fixed-layout records handed back to the caller (`CSendResult`, `CMQException`)
  and the `strncpy`-based copy of strings into their fixed buffers;
* the sharding-key queue selector `SelectMessageQueueInner::select`;
* the two completion bridges `COnSendCallback` and `CSendCallback`;
* the facade operations (`StartProducer`, `ShutdownProducer`, setters, and all send
  entry points), as state-passing functions over a `World` that holds the state of the
  underlying `DefaultMQProducer`, the process-wide last-error slot
  (`MQClientErrorContainer`) and the trace of calls made on the underlying producer.

Conventions.

* A C pointer argument is an `Option`: `none` is `NULL`.
* A C string / `std::string` is the list of its bytes (`List Nat`); `c_str()` is that list
  followed by a zero byte.
* Integers follow the LP64 data model: `int` is 32 bits, `size_t` is 64 bits.
* The underlying producer is a collaborator outside this file: it is a parameter
  (`DefaultMQProducer σ`), free to return or to raise on every call.
* Enumerator values and buffer capacities come from headers that are not part of the
  source tree at hand; they are parameters too (`CHeaders`).
-/

namespace CProducer

/-! ## Data model -/

/-- Return codes of the facade (`CStatus` of `CCommon.h`), as far as `CProducer.cpp` uses them. -/
inductive CStatus where
  | OK
  | NULL_POINTER
  | PRODUCER_START_FAILED
  | PRODUCER_SEND_SYNC_FAILED
  | PRODUCER_SEND_ONEWAY_FAILED
  | PRODUCER_SEND_ORDERLY_FAILED
  deriving DecidableEq, Repr

/-- How a C++ call ends: it returns a value, it raises a `std::exception` whose `what()` is
the given text, or its behaviour is undefined (here: an integer division by zero). -/
inductive Outcome (α : Type) where
  | returned (a : α)
  | raised (what : String)
  | undefinedBehaviour
  deriving DecidableEq, Repr

/-- Constants of headers outside the source tree: the enumerators of `SendStatus`
(`SendResult.h`) and of `CSendStatus` (`CSendResult.h`) with their integer values, and the
three buffer capacities (`CSendResult.h`, `CMQException.h`). -/
structure CHeaders where
  SEND_OK : Int
  SEND_FLUSH_DISK_TIMEOUT : Int
  SEND_FLUSH_SLAVE_TIMEOUT : Int
  SEND_SLAVE_NOT_AVAILABLE : Int
  E_SEND_OK : Int
  E_SEND_FLUSH_DISK_TIMEOUT : Int
  E_SEND_FLUSH_SLAVE_TIMEOUT : Int
  E_SEND_SLAVE_NOT_AVAILABLE : Int
  MAX_MESSAGE_ID_LENGTH : Nat
  MAX_EXEPTION_MSG_LENGTH : Nat
  MAX_EXEPTION_FILE_LENGTH : Nat
  deriving DecidableEq, Repr

/-- The `SendResult` of the underlying producer, read through `getSendStatus()`,
`getMsgId()` and `getQueueOffset()`. The status is kept as the integer value of the
enumeration so that values outside the four enumerators can be expressed. -/
structure SendResult where
  sendStatus : Int
  msgId : List Nat
  queueOffset : Int
  deriving DecidableEq, Repr

/-- The Result Record `CSendResult`: `msgId` is the content of the array
`char msgId[MAX_MESSAGE_ID_LENGTH]`. -/
structure CSendResult where
  sendStatus : Int
  msgId : List Nat
  offset : Int
  deriving DecidableEq, Repr

/-- The failure object `MQException`, read through `GetError()`, `GetLine()`, `what()` and
`GetFile()`. -/
structure MQException where
  error : Int
  line : Int
  what : List Nat
  file : List Nat
  deriving DecidableEq, Repr

/-- The Exception Record `CMQException`: `msg` and `file` are the contents of the arrays
`char msg[MAX_EXEPTION_MSG_LENGTH]` and `char file[MAX_EXEPTION_FILE_LENGTH]`. -/
structure CMQException where
  error : Int
  line : Int
  msg : List Nat
  file : List Nat
  deriving DecidableEq, Repr

/-- A message (`MQMessage`, reached through a `CMessage*`); the facade never looks inside. -/
structure MQMessage where
  topic : String
  body : String
  deriving DecidableEq, Repr

/-- A candidate queue (`MQMessageQueue`). -/
structure MQMessageQueue where
  topic : String
  brokerName : String
  queueId : Int
  deriving DecidableEq, Repr

/-! ## `strncpy` into a fixed buffer -/

/-- The `n` bytes that `strncpy(dst, src.c_str(), n)` stores: the bytes of `src` up to its
first zero byte (at most `n` of them), then zero bytes up to `n` bytes in all. -/
def strncpyBytes : List Nat → Nat → List Nat
  | _, 0 => []
  | [], n + 1 => 0 :: strncpyBytes [] n
  | c :: cs, n + 1 => if c = 0 then 0 :: strncpyBytes [] n else c :: strncpyBytes cs n

/-- The array `dst` after `strncpy(dst, src.c_str(), n)`: the first `n` bytes are
overwritten, the bytes from position `n` on keep their prior contents. -/
def strncpy (dst src : List Nat) (n : Nat) : List Nat :=
  strncpyBytes src n ++ dst.drop n

/-- The C string held by a character array: the bytes before its first zero byte. -/
def cstr (buf : List Nat) : List Nat :=
  buf.takeWhile (fun b => b != 0)

/-- Whether a character array holds a zero byte, i.e. is null-terminated within its bounds. -/
def nullTerminated (buf : List Nat) : Bool :=
  buf.any (fun b => b == 0)

/-! ## Result translation -/

/-- The `switch` of `SendMessageSync` and `SendBatchMessage` (lines 195-211 and 231-247). -/
def statusSwitch (H : CHeaders) (s : Int) : Int :=
  if s = H.SEND_OK then H.E_SEND_OK
  else if s = H.SEND_FLUSH_DISK_TIMEOUT then H.E_SEND_FLUSH_DISK_TIMEOUT
  else if s = H.SEND_FLUSH_SLAVE_TIMEOUT then H.E_SEND_FLUSH_SLAVE_TIMEOUT
  else if s = H.SEND_SLAVE_NOT_AVAILABLE then H.E_SEND_SLAVE_NOT_AVAILABLE
  else H.E_SEND_OK

/-- The conversion `CSendStatus((int)sendResult.getSendStatus())` of the orderly sends and of
both completion bridges (lines 73, 107, 351, 374): the integer value is carried over. -/
def statusCast (s : Int) : Int := s

/-- The two statements that fill `msgId` (lines 213-214, and alike 75-76, 109-110, 249-250,
353-354, 376-377): `strncpy(msgId, id.c_str(), MAX_MESSAGE_ID_LENGTH - 1)` followed by
`msgId[MAX_MESSAGE_ID_LENGTH - 1] = 0`. -/
def copyMsgId (H : CHeaders) (msgId : List Nat) (id : List Nat) : List Nat :=
  (strncpy msgId id (H.MAX_MESSAGE_ID_LENGTH - 1)).set (H.MAX_MESSAGE_ID_LENGTH - 1) 0

/-- The record written by the `try` block of `SendMessageSync` / `SendBatchMessage`. -/
def fillResultSwitch (H : CHeaders) (r : CSendResult) (sr : SendResult) : CSendResult :=
  { sendStatus := statusSwitch H sr.sendStatus
    offset := sr.queueOffset
    msgId := copyMsgId H r.msgId sr.msgId }

/-- The record written by `SendMessageOrderly`, `SendMessageOrderlyByShardingKey` and the
`onSuccess` of both completion bridges. -/
def fillResultCast (H : CHeaders) (r : CSendResult) (sr : SendResult) : CSendResult :=
  { sendStatus := statusCast sr.sendStatus
    offset := sr.queueOffset
    msgId := copyMsgId H r.msgId sr.msgId }

/-- The record written by `onException` of both completion bridges (lines 81-85 and
115-119): two fields assigned, two `strncpy` calls, and no store to the last byte of either
array. -/
def fillException (H : CHeaders) (x : CMQException) (e : MQException) : CMQException :=
  { error := e.error
    line := e.line
    msg := strncpy x.msg e.what (H.MAX_EXEPTION_MSG_LENGTH - 1)
    file := strncpy x.file e.file (H.MAX_EXEPTION_FILE_LENGTH - 1) }

/-! ## Completion bridges

`stack` is the content of the local record (`CSendResult result;` / `CMQException exception;`)
before it is filled: an automatic variable of a C struct type, hence arbitrary. The value
returned is the record passed to the caller's notification function. -/

/-- The record `COnSendCallback::onSuccess` passes to `m_cSendSuccessCallback`. -/
def COnSendCallback.onSuccess (H : CHeaders) (stack : CSendResult) (sendResult : SendResult) :
    CSendResult :=
  fillResultCast H stack sendResult

/-- The record `COnSendCallback::onException` passes to `m_cSendExceptionCallback`. -/
def COnSendCallback.onException (H : CHeaders) (stack : CMQException) (e : MQException) :
    CMQException :=
  fillException H stack e

/-- The record `CSendCallback::onSuccess` passes to `m_cSendSuccessCallback`. -/
def CSendCallback.onSuccess (H : CHeaders) (stack : CSendResult) (sendResult : SendResult) :
    CSendResult :=
  fillResultCast H stack sendResult

/-- The record `CSendCallback::onException` passes to `m_cSendExceptionCallback`. -/
def CSendCallback.onException (H : CHeaders) (stack : CMQException) (e : MQException) :
    CMQException :=
  fillException H stack e

/-! ## Queue selector -/

/-- The conversion of a `size_t` value to `int` (32 bits, two's complement). -/
def toInt32 (x : Nat) : Int :=
  if x % 2 ^ 32 < 2 ^ 31 then ((x % 2 ^ 32 : Nat) : Int) else ((x % 2 ^ 32 : Nat) : Int) - 2 ^ 32

/-- The conversion of an `int` to `size_t` (64 bits) that the usual arithmetic conversions
apply to the left operand of `index % mqs.size()`. -/
def toSizeT (i : Int) : Nat :=
  (i % 2 ^ 64).toNat

/-- The value of the local `int index` after line 37 of `SelectMessageQueueInner::select`,
for a non-empty `mqs`. `hash arg` stands for
`std::hash<std::string>()(UtilAll::to_string((char*)arg))`, the hash of the sharding key
whose bytes are `arg`; the hash function is the standard library's and is a parameter. Its
result is a `size_t`, hence taken modulo `2 ^ 64`. -/
def SelectMessageQueueInner.index (hash : List Nat → Nat) (mqs : List MQMessageQueue)
    (arg : List Nat) : Int :=
  toInt32 (hash arg % 2 ^ 64 % mqs.length)

/-- The method `SelectMessageQueueInner::select` (lines 33-39). With an empty `mqs` the
remainder `% mqs.size()` divides by zero; an index outside the vector would be an
out-of-bounds `operator[]`. The method has no `throw`. -/
def SelectMessageQueueInner.select (hash : List Nat → Nat) (mqs : List MQMessageQueue)
    (_msg : MQMessage) (arg : List Nat) : Outcome MQMessageQueue :=
  if mqs.length = 0 then .undefinedBehaviour
  else
    match mqs[toSizeT (SelectMessageQueueInner.index hash mqs arg) % mqs.length]? with
    | some q => .returned q
    | none => .undefinedBehaviour

/-! ## The underlying producer and the world of the facade -/

/-- The selector object handed to the underlying producer: a `SelectMessageQueue` built
from the caller's function pointer (`none` is a `NULL` function pointer), or a
`SelectMessageQueueInner`. -/
inductive Selector where
  | callback (fn : Option Nat)
  | inner
  deriving DecidableEq, Repr

/-- The completion bridge handed to the underlying producer: a `CSendCallback` or a
`COnSendCallback`, with the members their constructors store. -/
inductive Bridge where
  | cSendCallback (success failure : Nat)
  | cOnSendCallback (success failure : Nat) (message : MQMessage) (userData : Option (List Nat))
  deriving DecidableEq, Repr

/-- A method call on the underlying `DefaultMQProducer`, with its arguments. A `void*`
argument is `none` (NULL) or the bytes it points to. -/
inductive ProducerCall where
  | start
  | shutdown
  | setNamesrvAddr (namesrv : List Nat)
  | setGroupName (groupName : List Nat)
  | setInstanceName (instanceName : List Nat)
  | setSendMsgTimeout (timeout : Int)
  | setCompressMsgBodyOverHowmuch (howmuch : Int)
  | setCompressLevel (level : Int)
  | setMaxMessageSize (size : Int)
  | send (msg : MQMessage)
  | sendBatch (msgs : List MQMessage)
  | sendAsync (msg : MQMessage) (cb : Bridge)
  | sendOneway (msg : MQMessage)
  | sendOnewaySelect (msg : MQMessage) (selector : Selector) (arg : Option (List Nat))
  | sendSelectAsync (msg : MQMessage) (selector : Selector) (arg : Option (List Nat)) (cb : Bridge)
  | sendSelect (msg : MQMessage) (selector : Selector) (arg : Option (List Nat))
  | sendSelectRetry (msg : MQMessage) (selector : Selector) (arg : Option (List Nat))
      (retryTimes : Int)
  deriving DecidableEq, Repr

/-- The retry count a call on the underlying producer carries, if it carries one. -/
def ProducerCall.retryTimes : ProducerCall → Option Int
  | .sendSelectRetry _ _ _ n => some n
  | _ => none

/-- The underlying producer, an external collaborator with state `σ`: on each call it moves
to a new state and either returns or raises a `std::exception` with the given `what()`.
`invoke` answers the methods returning `void`, `invokeSend` those returning a `SendResult`. -/
structure DefaultMQProducer (σ : Type) where
  invoke : ProducerCall → σ → σ × Except String Unit
  invokeSend : ProducerCall → σ → σ × Except String SendResult

/-- What the facade acts on besides its arguments: the state of the producer behind the
handle, the process-wide last-error slot of `MQClientErrorContainer`, and the calls made on
the underlying producer so far. -/
structure World (σ : Type) where
  producer : σ
  lastErr : String
  trace : List ProducerCall
  deriving DecidableEq

/-- The world after call `c` moved the underlying producer to state `p`. -/
def World.call {σ : Type} (w : World σ) (p : σ) (c : ProducerCall) : World σ :=
  { w with producer := p, trace := w.trace ++ [c] }

/-- The statement `MQClientErrorContainer::setErr(std::string(e.what()))`. -/
def World.setErr {σ : Type} (w : World σ) (what : String) : World σ :=
  { w with lastErr := what }

/-- The end of a facade operation without output record: what the caller gets (a code, or
the exception that left the function) and the world afterwards. -/
structure Done (σ : Type) where
  ret : Outcome CStatus
  world : World σ
  deriving DecidableEq

/-- The end of a facade operation with an output record: as `Done`, plus the content of
`*result` afterwards (`none` when the `result` pointer is NULL). -/
structure DoneResult (σ : Type) where
  ret : Outcome CStatus
  world : World σ
  result : Option CSendResult
  deriving DecidableEq

/-! ## Facade operations

`producer : Option Unit` is the `CProducer*` argument: `NULL`, or the handle of the producer
whose state is `w.producer`. Statements that cannot raise in the source (casts, assignments,
`strncpy`) are evaluated in place; a method call on the underlying producer is the only point
where an exception can arise. A `catch (std::exception& e)` clause exists exactly where the
embedding turns an `Except.error` into a returned code. -/

variable {σ : Type}

/-- The function `StartProducer` (lines 148-159). -/
def StartProducer (P : DefaultMQProducer σ) (producer : Option Unit) (w : World σ) : Done σ :=
  match producer with
  | none => { ret := .returned .NULL_POINTER, world := w }
  | some _ =>
    let r := P.invoke .start w.producer
    match r.2 with
    | .error what =>
      { ret := .returned .PRODUCER_START_FAILED, world := (w.call r.1 .start).setErr what }
    | .ok _ => { ret := .returned .OK, world := w.call r.1 .start }

/-- The shape shared by `ShutdownProducer` and the setters that reach the producer: a null
check on the handle, one method call outside any `try` block, `return OK`. -/
def forwardUnguarded (P : DefaultMQProducer σ) (producer : Option Unit) (c : ProducerCall)
    (w : World σ) : Done σ :=
  match producer with
  | none => { ret := .returned .NULL_POINTER, world := w }
  | some _ =>
    let r := P.invoke c w.producer
    match r.2 with
    | .error what => { ret := .raised what, world := w.call r.1 c }
    | .ok _ => { ret := .returned .OK, world := w.call r.1 c }

/-- The function `ShutdownProducer` (lines 161-167). -/
def ShutdownProducer (P : DefaultMQProducer σ) (producer : Option Unit) (w : World σ) : Done σ :=
  forwardUnguarded P producer .shutdown w

/-- The function `SetProducerNameServerAddress` (lines 169-175), for a non-null `namesrv`. -/
def SetProducerNameServerAddress (P : DefaultMQProducer σ) (producer : Option Unit)
    (namesrv : List Nat) (w : World σ) : Done σ :=
  forwardUnguarded P producer (.setNamesrvAddr namesrv) w

/-- The function `SetProducerGroupName` (lines 385-391), for a non-null `groupName`. -/
def SetProducerGroupName (P : DefaultMQProducer σ) (producer : Option Unit)
    (groupName : List Nat) (w : World σ) : Done σ :=
  forwardUnguarded P producer (.setGroupName groupName) w

/-- The function `SetProducerInstanceName` (lines 393-399), for a non-null `instanceName`. -/
def SetProducerInstanceName (P : DefaultMQProducer σ) (producer : Option Unit)
    (instanceName : List Nat) (w : World σ) : Done σ :=
  forwardUnguarded P producer (.setInstanceName instanceName) w

/-- The function `SetProducerSendMsgTimeout` (lines 438-444). -/
def SetProducerSendMsgTimeout (P : DefaultMQProducer σ) (producer : Option Unit)
    (timeout : Int) (w : World σ) : Done σ :=
  forwardUnguarded P producer (.setSendMsgTimeout timeout) w

/-- The function `SetProducerCompressMsgBodyOverHowmuch` (lines 446-452). -/
def SetProducerCompressMsgBodyOverHowmuch (P : DefaultMQProducer σ) (producer : Option Unit)
    (howmuch : Int) (w : World σ) : Done σ :=
  forwardUnguarded P producer (.setCompressMsgBodyOverHowmuch howmuch) w

/-- The function `SetProducerCompressLevel` (lines 454-460). -/
def SetProducerCompressLevel (P : DefaultMQProducer σ) (producer : Option Unit)
    (level : Int) (w : World σ) : Done σ :=
  forwardUnguarded P producer (.setCompressLevel level) w

/-- The function `SetProducerMaxMessageSize` (lines 462-468). -/
def SetProducerMaxMessageSize (P : DefaultMQProducer σ) (producer : Option Unit)
    (size : Int) (w : World σ) : Done σ :=
  forwardUnguarded P producer (.setMaxMessageSize size) w

/-- The function `SendMessageSync` (lines 186-220). -/
def SendMessageSync (H : CHeaders) (P : DefaultMQProducer σ) (producer : Option Unit)
    (msg : Option MQMessage) (result : Option CSendResult) (w : World σ) : DoneResult σ :=
  match producer, msg, result with
  | some _, some message, some res =>
    let r := P.invokeSend (.send message) w.producer
    match r.2 with
    | .ok sendResult =>
      { ret := .returned .OK, world := w.call r.1 (.send message),
        result := some (fillResultSwitch H res sendResult) }
    | .error what =>
      { ret := .returned .PRODUCER_SEND_SYNC_FAILED,
        world := (w.call r.1 (.send message)).setErr what, result := some res }
  | _, _, _ => { ret := .returned .NULL_POINTER, world := w, result := result }

/-- The function `SendBatchMessage` (lines 222-255); its `catch` clause only returns. -/
def SendBatchMessage (H : CHeaders) (P : DefaultMQProducer σ) (producer : Option Unit)
    (batcMsg : Option (List MQMessage)) (result : Option CSendResult) (w : World σ) :
    DoneResult σ :=
  match producer, batcMsg, result with
  | some _, some message, some res =>
    let r := P.invokeSend (.sendBatch message) w.producer
    match r.2 with
    | .ok sendResult =>
      { ret := .returned .OK, world := w.call r.1 (.sendBatch message),
        result := some (fillResultSwitch H res sendResult) }
    | .error _ =>
      { ret := .returned .PRODUCER_SEND_SYNC_FAILED,
        world := w.call r.1 (.sendBatch message), result := some res }
  | _, _, _ => { ret := .returned .NULL_POINTER, world := w, result := result }

/-- The function `SendMessageAsync` (lines 257-269); the call is outside any `try` block. -/
def SendMessageAsync (P : DefaultMQProducer σ) (producer : Option Unit) (msg : Option MQMessage)
    (cSendSuccessCallback cSendExceptionCallback : Option Nat) (w : World σ) : Done σ :=
  match producer, msg, cSendSuccessCallback, cSendExceptionCallback with
  | some _, some message, some s, some f =>
    let c := ProducerCall.sendAsync message (.cSendCallback s f)
    let r := P.invoke c w.producer
    match r.2 with
    | .error what => { ret := .raised what, world := w.call r.1 c }
    | .ok _ => { ret := .returned .OK, world := w.call r.1 c }
  | _, _, _, _ => { ret := .returned .NULL_POINTER, world := w }

/-- The function `SendAsync` (lines 271-284); `usrData` is not checked and the call is
outside any `try` block. -/
def SendAsync (P : DefaultMQProducer σ) (producer : Option Unit) (msg : Option MQMessage)
    (onSuccess onException : Option Nat) (usrData : Option (List Nat)) (w : World σ) : Done σ :=
  match producer, msg, onSuccess, onException with
  | some _, some message, some s, some f =>
    let c := ProducerCall.sendAsync message (.cOnSendCallback s f message usrData)
    let r := P.invoke c w.producer
    match r.2 with
    | .error what => { ret := .raised what, world := w.call r.1 c }
    | .ok _ => { ret := .returned .OK, world := w.call r.1 c }
  | _, _, _, _ => { ret := .returned .NULL_POINTER, world := w }

/-- The function `SendMessageOneway` (lines 286-298); its `catch` clause only returns. -/
def SendMessageOneway (P : DefaultMQProducer σ) (producer : Option Unit) (msg : Option MQMessage)
    (w : World σ) : Done σ :=
  match producer, msg with
  | some _, some message =>
    let r := P.invoke (.sendOneway message) w.producer
    match r.2 with
    | .error _ =>
      { ret := .returned .PRODUCER_SEND_ONEWAY_FAILED, world := w.call r.1 (.sendOneway message) }
    | .ok _ => { ret := .returned .OK, world := w.call r.1 (.sendOneway message) }
  | _, _ => { ret := .returned .NULL_POINTER, world := w }

/-- The function `SendMessageOnewayOrderly` (lines 300-314); only `producer` and `msg` are
checked, `selector` goes into the `SelectMessageQueue` as it is. -/
def SendMessageOnewayOrderly (P : DefaultMQProducer σ) (producer : Option Unit)
    (msg : Option MQMessage) (selector : Option Nat) (arg : Option (List Nat)) (w : World σ) :
    Done σ :=
  match producer, msg with
  | some _, some message =>
    let c := ProducerCall.sendOnewaySelect message (.callback selector) arg
    let r := P.invoke c w.producer
    match r.2 with
    | .error what =>
      { ret := .returned .PRODUCER_SEND_ONEWAY_FAILED, world := (w.call r.1 c).setErr what }
    | .ok _ => { ret := .returned .OK, world := w.call r.1 c }
  | _, _ => { ret := .returned .NULL_POINTER, world := w }

/-- The function `SendMessageOrderlyAsync` (lines 316-333); `arg` is not checked and the
call is outside any `try` block. -/
def SendMessageOrderlyAsync (P : DefaultMQProducer σ) (producer : Option Unit)
    (msg : Option MQMessage) (callback : Option Nat) (arg : Option (List Nat))
    (cSendSuccessCallback cSendExceptionCallback : Option Nat) (w : World σ) : Done σ :=
  match producer, msg, callback, cSendSuccessCallback, cSendExceptionCallback with
  | some _, some message, some cb, some s, some f =>
    let c := ProducerCall.sendSelectAsync message (.callback (some cb)) arg (.cSendCallback s f)
    let r := P.invoke c w.producer
    match r.2 with
    | .error what => { ret := .raised what, world := w.call r.1 c }
    | .ok _ => { ret := .returned .OK, world := w.call r.1 c }
  | _, _, _, _, _ => { ret := .returned .NULL_POINTER, world := w }

/-- The function `SendMessageOrderly` (lines 335-360); `autoRetryTimes` occurs in the
parameter list only. -/
def SendMessageOrderly (H : CHeaders) (P : DefaultMQProducer σ) (producer : Option Unit)
    (msg : Option MQMessage) (callback : Option Nat) (arg : Option (List Nat))
    (_autoRetryTimes : Int) (result : Option CSendResult) (w : World σ) : DoneResult σ :=
  match producer, msg, callback, arg, result with
  | some _, some message, some cb, some a, some res =>
    let c := ProducerCall.sendSelect message (.callback (some cb)) (some a)
    let r := P.invokeSend c w.producer
    match r.2 with
    | .ok sendResult =>
      { ret := .returned .OK, world := w.call r.1 c,
        result := some (fillResultCast H res sendResult) }
    | .error what =>
      { ret := .returned .PRODUCER_SEND_ORDERLY_FAILED,
        world := (w.call r.1 c).setErr what, result := some res }
  | _, _, _, _, _ => { ret := .returned .NULL_POINTER, world := w, result := result }

/-- The function `SendMessageOrderlyByShardingKey` (lines 362-383), with `retryTimes = 3`. -/
def SendMessageOrderlyByShardingKey (H : CHeaders) (P : DefaultMQProducer σ)
    (producer : Option Unit) (msg : Option MQMessage) (shardingKey : Option (List Nat))
    (result : Option CSendResult) (w : World σ) : DoneResult σ :=
  match producer, msg, shardingKey, result with
  | some _, some message, some key, some res =>
    let retryTimes : Int := 3
    let c := ProducerCall.sendSelectRetry message .inner (some key) retryTimes
    let r := P.invokeSend c w.producer
    match r.2 with
    | .ok sendResult =>
      { ret := .returned .OK, world := w.call r.1 c,
        result := some (fillResultCast H res sendResult) }
    | .error what =>
      { ret := .returned .PRODUCER_SEND_ORDERLY_FAILED,
        world := (w.call r.1 c).setErr what, result := some res }
  | _, _, _, _ => { ret := .returned .NULL_POINTER, world := w, result := result }

/-! ## Concrete collaborators and constants used in examples -/

/-- A header set for examples: both enumerations numbered 0 to 3 in declaration order,
capacities 256, 512 and 256. -/
def sampleHeaders : CHeaders where
  SEND_OK := 0
  SEND_FLUSH_DISK_TIMEOUT := 1
  SEND_FLUSH_SLAVE_TIMEOUT := 2
  SEND_SLAVE_NOT_AVAILABLE := 3
  E_SEND_OK := 0
  E_SEND_FLUSH_DISK_TIMEOUT := 1
  E_SEND_FLUSH_SLAVE_TIMEOUT := 2
  E_SEND_SLAVE_NOT_AVAILABLE := 3
  MAX_MESSAGE_ID_LENGTH := 256
  MAX_EXEPTION_MSG_LENGTH := 512
  MAX_EXEPTION_FILE_LENGTH := 256

/-- A header set with short buffers (8 bytes each), for examples evaluated byte by byte. -/
def smallHeaders : CHeaders :=
  { sampleHeaders with
    MAX_MESSAGE_ID_LENGTH := 8
    MAX_EXEPTION_MSG_LENGTH := 8
    MAX_EXEPTION_FILE_LENGTH := 8 }

/-- An underlying producer (its state counts the calls it received) that accepts every call
and reports `sr` for every send returning a result. -/
def acceptingProducer (sr : SendResult) : DefaultMQProducer Nat where
  invoke _ n := (n + 1, .ok ())
  invokeSend _ n := (n + 1, .ok sr)

/-- An underlying producer (its state counts the calls it received) in which every call
raises a `std::exception` with the text `what`. -/
def raisingProducer (what : String) : DefaultMQProducer Nat where
  invoke _ n := (n + 1, .error what)
  invokeSend _ n := (n + 1, .error what)

/-- The world before any call: a fresh producer, an empty last-error slot, no call made. -/
def freshWorld : World Nat :=
  { producer := 0, lastErr := "", trace := [] }

/-- A message for examples. -/
def sampleMessage : MQMessage :=
  { topic := "TopicTest", body := "hello" }

/-- The bytes of the identifier `ABC123`. -/
def idABC123 : List Nat := [65, 66, 67, 49, 50, 51]

/-- The send outcome of the spec's scenario: status `SEND_OK`, offset 42, id `ABC123`. -/
def sampleSendResult : SendResult :=
  { sendStatus := 0, msgId := idABC123, queueOffset := 42 }

/-- A send outcome whose message id has 300 bytes (300 times the letter `A`). -/
def longIdResult : SendResult :=
  { sendStatus := 0, msgId := List.replicate 300 65, queueOffset := 42 }

/-- A Result Record whose memory holds the byte `0xAA` everywhere, for `cap` id bytes. -/
def dirtyResult (cap : Nat) : CSendResult :=
  { sendStatus := 170, msgId := List.replicate cap 170, offset := 170 }

/-- An Exception Record whose memory holds the byte `0xAA` everywhere. -/
def dirtyException (msgCap fileCap : Nat) : CMQException :=
  { error := 170, line := 170, msg := List.replicate msgCap 170,
    file := List.replicate fileCap 170 }

/-- The bytes of the file name `net.c`. -/
def fileNetC : List Nat := [110, 101, 116, 46, 99]

/-- A failure whose message is 600 bytes long (600 times the letter `a`), raised at line 88
of `net.c` with error code -1. -/
def longFailure : MQException :=
  { error := -1, line := 88, what := List.replicate 600 97, file := fileNetC }

/-- Queue number `i` of the example topic. -/
def queueNo (i : Nat) : MQMessageQueue :=
  { topic := "TopicTest", brokerName := "broker-a", queueId := i }

/-- Four candidate queues. -/
def fourQueues : List MQMessageQueue := [queueNo 0, queueNo 1, queueNo 2, queueNo 3]

/-- A candidate list of `2 ^ 31 + 1` queues, numbered from 0. -/
def manyQueues : List MQMessageQueue := (List.range (2 ^ 31 + 1)).map queueNo

/-- A failure with a short message (`timeout`) raised in a source file whose name has 300
bytes (300 times the letter `f`). -/
def longFileFailure : MQException :=
  { error := -1, line := 88, what := [116, 105, 109, 101, 111, 117, 116],
    file := List.replicate 300 102 }

/-- The bytes of the sharding key `user-7`. -/
def keyUser7 : List Nat := [117, 115, 101, 114, 45, 55]

/-! ## Properties stated by the claims -/

/-- The operation ended with `*result` holding a record that satisfies `Q`. -/
def Leaves (d : DoneResult σ) (Q : CSendResult → Prop) : Prop :=
  ∃ out, d.result = some out ∧ Q out

/-- The buffer `buf` of capacity `cap` holds the first `min |s| (cap - 1)` bytes of `s`
followed by a zero byte. -/
def HoldsId (cap : Nat) (s buf : List Nat) : Prop :=
  buf.length = cap ∧
    buf.take (min s.length (cap - 1) + 1) = s.take (min s.length (cap - 1)) ++ [0]

/-- The four defined statuses are mapped to their counterparts: `t` is the counterpart of `s`
whenever `s` is one of the four enumerators of `SendStatus`. -/
def MapsDefined (H : CHeaders) (s t : Int) : Prop :=
  (s = H.SEND_OK → t = H.E_SEND_OK) ∧
  (s = H.SEND_FLUSH_DISK_TIMEOUT → t = H.E_SEND_FLUSH_DISK_TIMEOUT) ∧
  (s = H.SEND_FLUSH_SLAVE_TIMEOUT → t = H.E_SEND_FLUSH_SLAVE_TIMEOUT) ∧
  (s = H.SEND_SLAVE_NOT_AVAILABLE → t = H.E_SEND_SLAVE_NOT_AVAILABLE)

/-- The status `s` is none of the four enumerators of `SendStatus`. -/
def Unrecognized (H : CHeaders) (s : Int) : Prop :=
  s ∉ [H.SEND_OK, H.SEND_FLUSH_DISK_TIMEOUT, H.SEND_FLUSH_SLAVE_TIMEOUT,
    H.SEND_SLAVE_NOT_AVAILABLE]

/-- The two enumerations give corresponding members the same integer value. -/
def Aligned (H : CHeaders) : Prop :=
  H.SEND_OK = H.E_SEND_OK ∧
  H.SEND_FLUSH_DISK_TIMEOUT = H.E_SEND_FLUSH_DISK_TIMEOUT ∧
  H.SEND_FLUSH_SLAVE_TIMEOUT = H.E_SEND_FLUSH_SLAVE_TIMEOUT ∧
  H.SEND_SLAVE_NOT_AVAILABLE = H.E_SEND_SLAVE_NOT_AVAILABLE

/-- The calls an operation added to the trace, going from world `w` to world `v`, carry no
retry count. -/
def NoRetryCount (w v : World σ) : Prop :=
  ∃ cs, v.trace = w.trace ++ cs ∧ ∀ c ∈ cs, ProducerCall.retryTimes c = none

/-! ## Lemmas on `strncpy` -/

theorem strncpyBytes_nil (n : Nat) : strncpyBytes [] n = List.replicate n 0 := by
  induction n with
  | zero => rfl
  | succ n ih => simp [strncpyBytes, ih, List.replicate_succ]

theorem strncpyBytes_length (s : List Nat) (n : Nat) : (strncpyBytes s n).length = n := by
  induction n generalizing s with
  | zero => cases s <;> rfl
  | succ n ih =>
    cases s with
    | nil => simp [strncpyBytes, ih]
    | cons c cs =>
      by_cases hc : c = 0 <;> simp [strncpyBytes, hc, ih]

theorem strncpyBytes_of_no_zero (s : List Nat) (n : Nat) (h0 : 0 ∉ s) :
    strncpyBytes s n = s.take n ++ List.replicate (n - s.length) 0 := by
  induction s generalizing n with
  | nil => simp [strncpyBytes_nil]
  | cons c cs ih =>
    cases n with
    | zero => simp [strncpyBytes]
    | succ n =>
      have hc : c ≠ 0 := fun h => h0 (by simp [h])
      have hcs : 0 ∉ cs := fun h => h0 (by simp [h])
      simp [strncpyBytes, hc, ih n hcs]

/-- The id buffer after the copy, for a buffer of the declared capacity: the bytes written
by `strncpy` followed by the terminator stored at the last position. -/
theorem copyMsgId_eq (H : CHeaders) (buf id : List Nat) (hcap : 0 < H.MAX_MESSAGE_ID_LENGTH)
    (hbuf : buf.length = H.MAX_MESSAGE_ID_LENGTH) :
    copyMsgId H buf id = strncpyBytes id (H.MAX_MESSAGE_ID_LENGTH - 1) ++ [0] := by
  obtain ⟨c, hc⟩ : ∃ c, H.MAX_MESSAGE_ID_LENGTH = c + 1 := ⟨H.MAX_MESSAGE_ID_LENGTH - 1, by omega⟩
  have hlen : (strncpyBytes id c).length = c := strncpyBytes_length id c
  have hdrop : (buf.drop c).length = 1 := by simp [List.length_drop, hbuf, hc]
  obtain ⟨b, hb⟩ : ∃ b, buf.drop c = [b] := by
    match h : buf.drop c, hdrop with
    | [b], _ => exact ⟨b, rfl⟩
  simp only [copyMsgId, strncpy, hc, Nat.add_sub_cancel, hb]
  rw [List.set_append]
  simp [hlen]

/-! ## What each path writes when the underlying call returns or raises -/

theorem SendMessageSync_ok (H : CHeaders) (P : DefaultMQProducer σ) (w : World σ)
    (m : MQMessage) (r : CSendResult) (sr : SendResult)
    (h : (P.invokeSend (.send m) w.producer).2 = .ok sr) :
    SendMessageSync H P (some ()) (some m) (some r) w =
      { ret := .returned .OK, world := w.call (P.invokeSend (.send m) w.producer).1 (.send m),
        result := some (fillResultSwitch H r sr) } := by
  simp [SendMessageSync, h]

theorem SendBatchMessage_ok (H : CHeaders) (P : DefaultMQProducer σ) (w : World σ)
    (b : List MQMessage) (r : CSendResult) (sr : SendResult)
    (h : (P.invokeSend (.sendBatch b) w.producer).2 = .ok sr) :
    SendBatchMessage H P (some ()) (some b) (some r) w =
      { ret := .returned .OK,
        world := w.call (P.invokeSend (.sendBatch b) w.producer).1 (.sendBatch b),
        result := some (fillResultSwitch H r sr) } := by
  simp [SendBatchMessage, h]

theorem SendMessageOrderly_ok (H : CHeaders) (P : DefaultMQProducer σ) (w : World σ)
    (m : MQMessage) (cb : Nat) (a : List Nat) (n : Int) (r : CSendResult) (sr : SendResult)
    (h : (P.invokeSend (.sendSelect m (.callback (some cb)) (some a)) w.producer).2 = .ok sr) :
    SendMessageOrderly H P (some ()) (some m) (some cb) (some a) n (some r) w =
      { ret := .returned .OK,
        world := w.call (P.invokeSend (.sendSelect m (.callback (some cb)) (some a)) w.producer).1
          (.sendSelect m (.callback (some cb)) (some a)),
        result := some (fillResultCast H r sr) } := by
  simp [SendMessageOrderly, h]

theorem SendMessageOrderlyByShardingKey_ok (H : CHeaders) (P : DefaultMQProducer σ)
    (w : World σ) (m : MQMessage) (key : List Nat) (r : CSendResult) (sr : SendResult)
    (h : (P.invokeSend (.sendSelectRetry m .inner (some key) 3) w.producer).2 = .ok sr) :
    SendMessageOrderlyByShardingKey H P (some ()) (some m) (some key) (some r) w =
      { ret := .returned .OK,
        world := w.call (P.invokeSend (.sendSelectRetry m .inner (some key) 3) w.producer).1
          (.sendSelectRetry m .inner (some key) 3),
        result := some (fillResultCast H r sr) } := by
  simp [SendMessageOrderlyByShardingKey, h]

/-! ## Truncation and termination of the message id -/

theorem copyMsgId_holds (H : CHeaders) (buf id : List Nat) (hcap : 0 < H.MAX_MESSAGE_ID_LENGTH)
    (hbuf : buf.length = H.MAX_MESSAGE_ID_LENGTH) (h0 : 0 ∉ id) :
    HoldsId H.MAX_MESSAGE_ID_LENGTH id (copyMsgId H buf id) := by
  rw [copyMsgId_eq H buf id hcap hbuf, strncpyBytes_of_no_zero id _ h0]
  generalize H.MAX_MESSAGE_ID_LENGTH = cap at hcap
  constructor
  · simp [List.length_take]; omega
  · rcases Nat.le_total id.length (cap - 1) with hle | hle
    · rw [Nat.min_eq_left hle, List.take_of_length_le hle, List.take_of_length_le (le_refl _),
        List.append_assoc, List.take_append_eq_append_take]
      simp
      cases hk : cap - 1 - id.length with
      | zero => simp
      | succ k => simp [List.replicate_succ]
    · rw [Nat.min_eq_right hle, Nat.sub_eq_zero_of_le hle]
      simp [List.take_append_eq_append_take, List.length_take, Nat.min_eq_left hle]

theorem cstr_of_holdsId (cap : Nat) (s buf : List Nat) (h0 : 0 ∉ s) (h : HoldsId cap s buf) :
    cstr buf = s.take (cap - 1) := by
  have h2 := h.2
  have hsplit := List.take_append_drop (min s.length (cap - 1) + 1) buf
  rw [h2] at hsplit
  rw [← hsplit, cstr, List.append_assoc, List.takeWhile_append_of_pos]
  · have : s.take (min s.length (cap - 1)) = s.take (cap - 1) := by
      rcases Nat.le_total s.length (cap - 1) with hle | hle
      · rw [Nat.min_eq_left hle, List.take_of_length_le hle, List.take_of_length_le (le_refl _)]
      · rw [Nat.min_eq_right hle]
    simp [List.takeWhile, this]
  · intro b hb
    have hbs : b ∈ s := List.mem_of_mem_take hb
    have : b ≠ 0 := fun hb0 => h0 (hb0 ▸ hbs)
    simpa using this

/-! ## Claims on the Result Record -/

/-- C5: on every path that builds a Result Record (`SendMessageSync`, `SendBatchMessage`,
`SendMessageOrderly`, `SendMessageOrderlyByShardingKey`, `onSuccess` of both completion
bridges), for a message id `s` without zero bytes and whatever the record held before, the
`msgId` buffer keeps its capacity `MAX_MESSAGE_ID_LENGTH` and holds the first
`min |s| (MAX_MESSAGE_ID_LENGTH - 1)` bytes of `s` followed by a zero byte; read as a C
string it is `s` cut to `MAX_MESSAGE_ID_LENGTH - 1` bytes. -/
theorem msgId_truncated_and_terminated (H : CHeaders) (P : DefaultMQProducer σ) (w : World σ)
    (m : MQMessage) (b : List MQMessage) (cb : Nat) (a key : List Nat) (n : Int)
    (r stack : CSendResult) (sr : SendResult)
    (hcap : 0 < H.MAX_MESSAGE_ID_LENGTH)
    (hr : r.msgId.length = H.MAX_MESSAGE_ID_LENGTH)
    (hstack : stack.msgId.length = H.MAX_MESSAGE_ID_LENGTH)
    (h0 : 0 ∉ sr.msgId) :
    ((P.invokeSend (.send m) w.producer).2 = .ok sr →
      Leaves (SendMessageSync H P (some ()) (some m) (some r) w) (fun out =>
        HoldsId H.MAX_MESSAGE_ID_LENGTH sr.msgId out.msgId ∧
        cstr out.msgId = sr.msgId.take (H.MAX_MESSAGE_ID_LENGTH - 1))) ∧
    ((P.invokeSend (.sendBatch b) w.producer).2 = .ok sr →
      Leaves (SendBatchMessage H P (some ()) (some b) (some r) w) (fun out =>
        HoldsId H.MAX_MESSAGE_ID_LENGTH sr.msgId out.msgId ∧
        cstr out.msgId = sr.msgId.take (H.MAX_MESSAGE_ID_LENGTH - 1))) ∧
    ((P.invokeSend (.sendSelect m (.callback (some cb)) (some a)) w.producer).2 = .ok sr →
      Leaves (SendMessageOrderly H P (some ()) (some m) (some cb) (some a) n (some r) w)
        (fun out =>
          HoldsId H.MAX_MESSAGE_ID_LENGTH sr.msgId out.msgId ∧
          cstr out.msgId = sr.msgId.take (H.MAX_MESSAGE_ID_LENGTH - 1))) ∧
    ((P.invokeSend (.sendSelectRetry m .inner (some key) 3) w.producer).2 = .ok sr →
      Leaves (SendMessageOrderlyByShardingKey H P (some ()) (some m) (some key) (some r) w)
        (fun out =>
          HoldsId H.MAX_MESSAGE_ID_LENGTH sr.msgId out.msgId ∧
          cstr out.msgId = sr.msgId.take (H.MAX_MESSAGE_ID_LENGTH - 1))) ∧
    (HoldsId H.MAX_MESSAGE_ID_LENGTH sr.msgId (COnSendCallback.onSuccess H stack sr).msgId ∧
      cstr (COnSendCallback.onSuccess H stack sr).msgId =
        sr.msgId.take (H.MAX_MESSAGE_ID_LENGTH - 1)) ∧
    (HoldsId H.MAX_MESSAGE_ID_LENGTH sr.msgId (CSendCallback.onSuccess H stack sr).msgId ∧
      cstr (CSendCallback.onSuccess H stack sr).msgId =
        sr.msgId.take (H.MAX_MESSAGE_ID_LENGTH - 1)) := by
  have hR := copyMsgId_holds H r.msgId sr.msgId hcap hr h0
  have hS := copyMsgId_holds H stack.msgId sr.msgId hcap hstack h0
  have cR := cstr_of_holdsId _ _ _ h0 hR
  have cS := cstr_of_holdsId _ _ _ h0 hS
  refine ⟨fun h => ?_, fun h => ?_, fun h => ?_, fun h => ?_, ⟨hS, cS⟩, ⟨hS, cS⟩⟩
  · exact ⟨_, by rw [SendMessageSync_ok H P w m r sr h], hR, cR⟩
  · exact ⟨_, by rw [SendBatchMessage_ok H P w b r sr h], hR, cR⟩
  · exact ⟨_, by rw [SendMessageOrderly_ok H P w m cb a n r sr h], hR, cR⟩
  · exact ⟨_, by rw [SendMessageOrderlyByShardingKey_ok H P w m key r sr h], hR, cR⟩

/-- C5, witness: a 300-byte id reported by an accepting producer, copied into records whose
memory held `0xAA` everywhere, with the capacity 256 of `sampleHeaders`: the record left by
`SendMessageSync` and the one built by `COnSendCallback::onSuccess` hold the first 255 bytes
of the id and a zero byte. -/
theorem msgId_truncated_and_terminated_witness :
    (0 < sampleHeaders.MAX_MESSAGE_ID_LENGTH ∧
      (dirtyResult 256).msgId.length = sampleHeaders.MAX_MESSAGE_ID_LENGTH ∧
      0 ∉ longIdResult.msgId ∧
      ((acceptingProducer longIdResult).invokeSend (.send sampleMessage) freshWorld.producer).2 =
        .ok longIdResult) ∧
    Leaves (SendMessageSync sampleHeaders (acceptingProducer longIdResult) (some ())
        (some sampleMessage) (some (dirtyResult 256)) freshWorld) (fun out =>
      HoldsId sampleHeaders.MAX_MESSAGE_ID_LENGTH longIdResult.msgId out.msgId ∧
      cstr out.msgId = longIdResult.msgId.take (sampleHeaders.MAX_MESSAGE_ID_LENGTH - 1)) ∧
    (HoldsId sampleHeaders.MAX_MESSAGE_ID_LENGTH longIdResult.msgId
        (COnSendCallback.onSuccess sampleHeaders (dirtyResult 256) longIdResult).msgId ∧
      cstr (COnSendCallback.onSuccess sampleHeaders (dirtyResult 256) longIdResult).msgId =
        longIdResult.msgId.take (sampleHeaders.MAX_MESSAGE_ID_LENGTH - 1)) :=
  have h1 : 0 < sampleHeaders.MAX_MESSAGE_ID_LENGTH := by decide
  have h2 : (dirtyResult 256).msgId.length = sampleHeaders.MAX_MESSAGE_ID_LENGTH :=
    List.length_replicate 256 170
  have h3 : 0 ∉ longIdResult.msgId :=
    fun h => absurd (List.eq_of_mem_replicate h) (by decide)
  have h := msgId_truncated_and_terminated sampleHeaders (acceptingProducer longIdResult)
    freshWorld sampleMessage [sampleMessage] 1 [1] [1] 0 (dirtyResult 256) (dirtyResult 256)
    longIdResult h1 h2 h2 h3
  ⟨⟨h1, h2, h3, rfl⟩, h.1 rfl, h.2.2.2.2.1⟩

/-- The spec's scenario `sendSync` with status `SEND_OK`, offset 42 and id `ABC123`: return
code `OK`, and a record with status `E_SEND_OK`, offset 42 and the C string `ABC123`. -/
theorem sendSync_scenario :
    (SendMessageSync smallHeaders (acceptingProducer sampleSendResult) (some ())
        (some sampleMessage) (some (dirtyResult 8)) freshWorld).ret = .returned .OK ∧
    (SendMessageSync smallHeaders (acceptingProducer sampleSendResult) (some ())
        (some sampleMessage) (some (dirtyResult 8)) freshWorld).result =
      some { sendStatus := 0, offset := 42, msgId := [65, 66, 67, 49, 50, 51, 0, 0] } := by
  decide

theorem statusSwitch_spec (H : CHeaders) (s : Int)
    (hd : [H.SEND_OK, H.SEND_FLUSH_DISK_TIMEOUT, H.SEND_FLUSH_SLAVE_TIMEOUT,
      H.SEND_SLAVE_NOT_AVAILABLE].Nodup) :
    MapsDefined H s (statusSwitch H s) ∧ (Unrecognized H s → statusSwitch H s = H.E_SEND_OK) := by
  simp only [List.nodup_cons, List.mem_cons, List.mem_singleton, List.not_mem_nil, not_or,
    List.nodup_nil, or_false] at hd
  obtain ⟨⟨h1, h2, h3⟩, ⟨h4, h5⟩, h6, -⟩ := hd
  refine ⟨⟨?_, ?_, ?_, ?_⟩, ?_⟩
  · intro h; simp [statusSwitch, h]
  · intro h; subst h; simp [statusSwitch, Ne.symm h1]
  · intro h; subst h; simp [statusSwitch, Ne.symm h2, Ne.symm h4]
  · intro h; subst h; simp [statusSwitch, Ne.symm h3, Ne.symm h5, Ne.symm h6]
  · intro h
    simp only [Unrecognized, List.mem_cons, List.mem_singleton, List.not_mem_nil, not_or,
      or_false] at h
    simp [statusSwitch, h.1, h.2.1, h.2.2.1, h.2.2.2]

theorem statusCast_spec (H : CHeaders) (s : Int) :
    statusCast s = s ∧ (Aligned H → MapsDefined H s (statusCast s)) := by
  refine ⟨rfl, fun hA => ⟨?_, ?_, ?_, ?_⟩⟩
  · intro h; rw [statusCast, h, hA.1]
  · intro h; rw [statusCast, h, hA.2.1]
  · intro h; rw [statusCast, h, hA.2.2.1]
  · intro h; rw [statusCast, h, hA.2.2.2]

/-- C4, counterexample: with the enumerations numbered 0 to 3, a status of value 4 (none of
the four enumerators) reported to `SendMessageOrderly`, to `SendMessageOrderlyByShardingKey`
and to `onSuccess` of either bridge gives `sendStatus` 4, which is not `E_SEND_OK`. -/
theorem unrecognized_status_not_defaulted :
    Unrecognized smallHeaders 4 ∧
    ((SendMessageOrderly smallHeaders (acceptingProducer (SendResult.mk 4 idABC123 42)) (some ())
        (some sampleMessage) (some 1) (some [1]) 0 (some (dirtyResult 8)) freshWorld).result.map
          (fun out => out.sendStatus) = some 4) ∧
    ((SendMessageOrderlyByShardingKey smallHeaders (acceptingProducer (SendResult.mk 4 idABC123 42))
        (some ()) (some sampleMessage) (some [1]) (some (dirtyResult 8)) freshWorld).result.map
          (fun out => out.sendStatus) = some 4) ∧
    (COnSendCallback.onSuccess smallHeaders (dirtyResult 8) (SendResult.mk 4 idABC123 42)).sendStatus
      = 4 ∧
    (CSendCallback.onSuccess smallHeaders (dirtyResult 8) (SendResult.mk 4 idABC123 42)).sendStatus
      = 4 ∧
    (4 : Int) ≠ smallHeaders.E_SEND_OK := by
  refine ⟨?_, ?_, ?_, ?_, ?_, ?_⟩
  · unfold Unrecognized; decide
  all_goals decide

/-- C4, as amended: `SendMessageSync` and `SendBatchMessage` map each of the four defined
statuses to its counterpart and every other status value to `E_SEND_OK`;
`SendMessageOrderly`, `SendMessageOrderlyByShardingKey` and `onSuccess` of both completion
bridges store the integer value of the reported status unchanged, which is the counterpart of
a defined status when the two enumerations number their members alike. -/
theorem status_translation_by_path (H : CHeaders) (P : DefaultMQProducer σ) (w : World σ)
    (m : MQMessage) (b : List MQMessage) (cb : Nat) (a key : List Nat) (n : Int)
    (r stack : CSendResult) (sr : SendResult)
    (hd : [H.SEND_OK, H.SEND_FLUSH_DISK_TIMEOUT, H.SEND_FLUSH_SLAVE_TIMEOUT,
      H.SEND_SLAVE_NOT_AVAILABLE].Nodup) :
    ((P.invokeSend (.send m) w.producer).2 = .ok sr →
      Leaves (SendMessageSync H P (some ()) (some m) (some r) w) (fun out =>
        MapsDefined H sr.sendStatus out.sendStatus ∧
        (Unrecognized H sr.sendStatus → out.sendStatus = H.E_SEND_OK))) ∧
    ((P.invokeSend (.sendBatch b) w.producer).2 = .ok sr →
      Leaves (SendBatchMessage H P (some ()) (some b) (some r) w) (fun out =>
        MapsDefined H sr.sendStatus out.sendStatus ∧
        (Unrecognized H sr.sendStatus → out.sendStatus = H.E_SEND_OK))) ∧
    ((P.invokeSend (.sendSelect m (.callback (some cb)) (some a)) w.producer).2 = .ok sr →
      Leaves (SendMessageOrderly H P (some ()) (some m) (some cb) (some a) n (some r) w)
        (fun out =>
          out.sendStatus = sr.sendStatus ∧
          (Aligned H → MapsDefined H sr.sendStatus out.sendStatus))) ∧
    ((P.invokeSend (.sendSelectRetry m .inner (some key) 3) w.producer).2 = .ok sr →
      Leaves (SendMessageOrderlyByShardingKey H P (some ()) (some m) (some key) (some r) w)
        (fun out =>
          out.sendStatus = sr.sendStatus ∧
          (Aligned H → MapsDefined H sr.sendStatus out.sendStatus))) ∧
    ((COnSendCallback.onSuccess H stack sr).sendStatus = sr.sendStatus ∧
      (Aligned H → MapsDefined H sr.sendStatus (COnSendCallback.onSuccess H stack sr).sendStatus)) ∧
    ((CSendCallback.onSuccess H stack sr).sendStatus = sr.sendStatus ∧
      (Aligned H → MapsDefined H sr.sendStatus (CSendCallback.onSuccess H stack sr).sendStatus)) := by
  have hSw := statusSwitch_spec H sr.sendStatus hd
  have hCa := statusCast_spec H sr.sendStatus
  refine ⟨fun h => ?_, fun h => ?_, fun h => ?_, fun h => ?_, hCa, hCa⟩
  · exact ⟨_, by rw [SendMessageSync_ok H P w m r sr h], hSw⟩
  · exact ⟨_, by rw [SendBatchMessage_ok H P w b r sr h], hSw⟩
  · exact ⟨_, by rw [SendMessageOrderly_ok H P w m cb a n r sr h], hCa⟩
  · exact ⟨_, by rw [SendMessageOrderlyByShardingKey_ok H P w m key r sr h], hCa⟩

/-- C4 as amended, witness: the enumerations numbered 0 to 3 and the status
`SEND_FLUSH_SLAVE_TIMEOUT` reported by an accepting producer. -/
theorem status_translation_by_path_witness :
    [smallHeaders.SEND_OK, smallHeaders.SEND_FLUSH_DISK_TIMEOUT,
      smallHeaders.SEND_FLUSH_SLAVE_TIMEOUT, smallHeaders.SEND_SLAVE_NOT_AVAILABLE].Nodup ∧
    ((acceptingProducer (SendResult.mk 2 idABC123 42)).invokeSend (.send sampleMessage)
        freshWorld.producer).2 = .ok (SendResult.mk 2 idABC123 42) ∧
    Leaves (SendMessageSync smallHeaders (acceptingProducer (SendResult.mk 2 idABC123 42))
        (some ()) (some sampleMessage) (some (dirtyResult 8)) freshWorld) (fun out =>
      MapsDefined smallHeaders (SendResult.mk 2 idABC123 42).sendStatus out.sendStatus ∧
      (Unrecognized smallHeaders (SendResult.mk 2 idABC123 42).sendStatus →
        out.sendStatus = smallHeaders.E_SEND_OK)) :=
  ⟨by decide, rfl,
    (status_translation_by_path smallHeaders (acceptingProducer (SendResult.mk 2 idABC123 42))
      freshWorld sampleMessage [sampleMessage] 1 [1] [1] 0 (dirtyResult 8) (dirtyResult 8)
      (SendResult.mk 2 idABC123 42) (by decide)).1 rfl⟩

/-! ## Claims on the Exception Record -/

theorem strncpy_of_long (dst src : List Nat) (n : Nat) (h0 : 0 ∉ src) (hn : n ≤ src.length) :
    strncpy dst src n = src.take n ++ dst.drop n := by
  rw [strncpy, strncpyBytes_of_no_zero src n h0, Nat.sub_eq_zero_of_le hn]
  simp

theorem strncpy_of_short (dst src : List Nat) (n : Nat) (h0 : 0 ∉ src) (hn : src.length < n) :
    strncpy dst src n = src ++ List.replicate (n - src.length) 0 ++ dst.drop n := by
  rw [strncpy, strncpyBytes_of_no_zero src n h0, List.take_of_length_le (le_of_lt hn)]

/-- Error code and line of the Exception Record are those of the failure, on both bridges. -/
theorem onException_error_line (H : CHeaders) (x : CMQException) (e : MQException) :
    (COnSendCallback.onException H x e).error = e.error ∧
    (COnSendCallback.onException H x e).line = e.line ∧
    (CSendCallback.onException H x e).error = e.error ∧
    (CSendCallback.onException H x e).line = e.line :=
  ⟨rfl, rfl, rfl, rfl⟩

/-- A message shorter than `MAX_EXEPTION_MSG_LENGTH - 1` bytes is copied whole and is
null-terminated by the padding of `strncpy`, whatever the record held before. -/
theorem onException_short_msg (H : CHeaders) (x : CMQException) (e : MQException)
    (h0 : 0 ∉ e.what) (hshort : e.what.length < H.MAX_EXEPTION_MSG_LENGTH - 1) :
    cstr (fillException H x e).msg = e.what ∧ nullTerminated (fillException H x e).msg = true := by
  have hpos : 0 < H.MAX_EXEPTION_MSG_LENGTH - 1 - e.what.length := by omega
  obtain ⟨k, hk⟩ : ∃ k, H.MAX_EXEPTION_MSG_LENGTH - 1 - e.what.length = k + 1 :=
    ⟨_, (Nat.succ_pred_eq_of_pos hpos).symm⟩
  have hmsg : (fillException H x e).msg =
      e.what ++ (0 :: (List.replicate k 0 ++ x.msg.drop (H.MAX_EXEPTION_MSG_LENGTH - 1))) := by
    simp only [fillException]
    rw [strncpy_of_short _ _ _ h0 hshort, hk, List.replicate_succ]
    simp
  rw [hmsg]
  constructor
  · rw [cstr, List.takeWhile_append_of_pos]
    · simp [List.takeWhile]
    · intro b hb
      have : b ≠ 0 := fun hb0 => h0 (hb0 ▸ hb)
      simpa using this
  · simp [nullTerminated]

/-- A message of at least `MAX_EXEPTION_MSG_LENGTH - 1` bytes fills the bytes `strncpy`
writes, and the bytes behind them are the prior content of the record: when those are not
zero, the `msg` array holds no zero byte at all. -/
theorem onException_long_msg (H : CHeaders) (x : CMQException) (e : MQException)
    (h0 : 0 ∉ e.what) (hlong : H.MAX_EXEPTION_MSG_LENGTH - 1 ≤ e.what.length)
    (hx : 0 ∉ x.msg.drop (H.MAX_EXEPTION_MSG_LENGTH - 1)) :
    (fillException H x e).msg =
      e.what.take (H.MAX_EXEPTION_MSG_LENGTH - 1) ++ x.msg.drop (H.MAX_EXEPTION_MSG_LENGTH - 1) ∧
    nullTerminated (fillException H x e).msg = false := by
  have hmsg : (fillException H x e).msg =
      e.what.take (H.MAX_EXEPTION_MSG_LENGTH - 1) ++ x.msg.drop (H.MAX_EXEPTION_MSG_LENGTH - 1) := by
    simp only [fillException]
    rw [strncpy_of_long _ _ _ h0 hlong]
  refine ⟨hmsg, ?_⟩
  rw [hmsg, nullTerminated, Bool.eq_false_iff]
  intro hany
  rw [List.any_eq_true] at hany
  obtain ⟨b, hb, hb0⟩ := hany
  have hb0 : b = 0 := by simpa using hb0
  subst hb0
  rcases List.mem_append.mp hb with h | h
  · exact h0 (List.mem_of_mem_take h)
  · exact hx h

set_option maxRecDepth 100000 in
/-- C6, at the failing input: a failure whose message has 600 bytes, reported to either
bridge while the local record holds `0xAA` bytes, with message capacity 512. The `msg` array
handed to the failure function has its 512 bytes all non-zero (511 bytes of the message and
the stale byte `0xAA` at the last position), so it is not null-terminated within
`MAX_EXEPTION_MSG_LENGTH` bytes; error code and line are copied. A file name of 300 bytes
leaves the `file` array (capacity 256) without a zero byte in the same way. -/
theorem onException_msg_unterminated :
    (COnSendCallback.onException sampleHeaders (dirtyException 512 256) longFailure).msg =
      List.replicate 511 97 ++ [170] ∧
    nullTerminated
      (COnSendCallback.onException sampleHeaders (dirtyException 512 256) longFailure).msg = false ∧
    (CSendCallback.onException sampleHeaders (dirtyException 512 256) longFailure).msg =
      List.replicate 511 97 ++ [170] ∧
    nullTerminated
      (CSendCallback.onException sampleHeaders (dirtyException 512 256) longFailure).msg = false ∧
    (COnSendCallback.onException sampleHeaders (dirtyException 512 256) longFailure).error = -1 ∧
    (COnSendCallback.onException sampleHeaders (dirtyException 512 256) longFailure).line = 88 ∧
    nullTerminated
      (COnSendCallback.onException sampleHeaders (dirtyException 512 256) longFileFailure).file
        = false ∧
    nullTerminated
      (CSendCallback.onException sampleHeaders (dirtyException 512 256) longFileFailure).file
        = false := by
  decide

/-! ## Claims on the sharding-key selector -/

theorem toInt32_of_lt (x : Nat) (h : x < 2 ^ 31) : toInt32 x = (x : Int) := by
  have h32 : x % 2 ^ 32 = x := Nat.mod_eq_of_lt (by omega)
  unfold toInt32
  rw [h32, if_pos h]

theorem toSizeT_of_nat (x : Nat) (h : x < 2 ^ 64) : toSizeT (x : Int) = x := by
  unfold toSizeT
  have : ((x : Int) % 2 ^ 64) = (x : Int) := Int.emod_eq_of_lt (by omega) (by exact_mod_cast h)
  rw [this]
  simp

theorem toSizeT_lt (i : Int) : toSizeT i < 2 ^ 64 := by
  unfold toSizeT
  have h1 : 0 ≤ i % 2 ^ 64 := Int.emod_nonneg _ (by norm_num)
  have h2 : i % 2 ^ 64 < 2 ^ 64 := Int.emod_lt_of_pos _ (by norm_num)
  omega

/-- C7, counterexample: with `2 ^ 31 + 1` candidate queues and a key whose hash is `2 ^ 31`,
the position `hash(k) mod |Q|` is `2 ^ 31`, but the `int index` is `- 2 ^ 31` (negative) and
the queue returned is the one at position 5, not the one at position `2 ^ 31`. -/
theorem select_beyond_int_range :
    manyQueues.length = 2 ^ 31 + 1 ∧
    (fun _ => 2 ^ 31 : List Nat → Nat) keyUser7 % 2 ^ 64 % manyQueues.length = 2 ^ 31 ∧
    manyQueues[2 ^ 31]? = some (queueNo (2 ^ 31)) ∧
    SelectMessageQueueInner.index (fun _ => 2 ^ 31) manyQueues keyUser7 = - 2 ^ 31 ∧
    SelectMessageQueueInner.select (fun _ => 2 ^ 31) manyQueues sampleMessage keyUser7 =
      .returned (queueNo 5) ∧
    queueNo 5 ≠ queueNo (2 ^ 31) := by
  have hlen : manyQueues.length = 2 ^ 31 + 1 := by
    simp only [manyQueues, List.length_map, List.length_range]
  have hidx : SelectMessageQueueInner.index (fun _ => 2 ^ 31) manyQueues keyUser7 = - 2 ^ 31 := by
    unfold SelectMessageQueueInner.index
    rw [hlen]
    decide
  have hget : ∀ i, i < 2 ^ 31 + 1 → manyQueues[i]? = some (queueNo i) := by
    intro i hi
    simp only [manyQueues, List.getElem?_map, List.getElem?_range hi, Option.map_some']
  refine ⟨hlen, ?_, hget _ (by norm_num), hidx, ?_, ?_⟩
  · rw [hlen]; decide
  · have hpos : (toSizeT (- 2 ^ 31)) % (2 ^ 31 + 1) = 5 := by
      unfold toSizeT; decide
    simp only [SelectMessageQueueInner.select, hidx, hlen, hpos]
    rw [hget 5 (by norm_num)]
    simp
  · simp [queueNo]

/-- C7, as amended: for every non-empty list `Q` of at most `2 ^ 31` candidate queues and
every sharding key `k`, the `int index` computed by `SelectMessageQueueInner::select` is
`hash(k) mod |Q|`, it satisfies `0 <= index < |Q|`, the queue at that position of `Q` is
returned, and the choice depends neither on the message nor on anything but `Q` and `k`. -/
theorem select_by_hash (hash : List Nat → Nat) (Q : List MQMessageQueue) (m : MQMessage)
    (k : List Nat) (hne : Q ≠ []) (hsize : Q.length ≤ 2 ^ 31) :
    SelectMessageQueueInner.index hash Q k = ((hash k % 2 ^ 64 % Q.length : Nat) : Int) ∧
    0 ≤ SelectMessageQueueInner.index hash Q k ∧
    SelectMessageQueueInner.index hash Q k < Q.length ∧
    (∃ q, Q[hash k % 2 ^ 64 % Q.length]? = some q ∧
      SelectMessageQueueInner.select hash Q m k = .returned q) ∧
    (∀ m2, SelectMessageQueueInner.select hash Q m2 k =
      SelectMessageQueueInner.select hash Q m k) := by
  have hpos : 0 < Q.length := List.length_pos.mpr hne
  have hlt : hash k % 2 ^ 64 % Q.length < Q.length := Nat.mod_lt _ hpos
  have hidx : SelectMessageQueueInner.index hash Q k =
      ((hash k % 2 ^ 64 % Q.length : Nat) : Int) :=
    toInt32_of_lt _ (by omega)
  have hsz : toSizeT (SelectMessageQueueInner.index hash Q k) % Q.length =
      hash k % 2 ^ 64 % Q.length := by
    rw [hidx, toSizeT_of_nat _ (by omega), Nat.mod_eq_of_lt hlt]
  refine ⟨hidx, ?_, ?_, ⟨Q.get ⟨_, hlt⟩, ?_, ?_⟩, fun m2 => rfl⟩
  · rw [hidx]; exact Int.ofNat_nonneg _
  · rw [hidx]; exact_mod_cast hlt
  · exact List.getElem?_eq_getElem hlt
  · unfold SelectMessageQueueInner.select
    rw [if_neg (by omega), hsz, List.getElem?_eq_getElem hlt]
    rfl

/-- C7 as amended, witness: four candidate queues and the key `user-7` with a hash that is 2
modulo 4 (here 6); the queue at position 2 is returned. -/
theorem select_by_hash_witness :
    (fourQueues ≠ [] ∧ fourQueues.length ≤ 2 ^ 31) ∧
    (fun _ => 6 : List Nat → Nat) keyUser7 % 2 ^ 64 % fourQueues.length = 2 ∧
    (∃ q, fourQueues[(fun _ => 6 : List Nat → Nat) keyUser7 % 2 ^ 64 % fourQueues.length]? = some q ∧
      SelectMessageQueueInner.select (fun _ => 6) fourQueues sampleMessage keyUser7 = .returned q) ∧
    SelectMessageQueueInner.select (fun _ => 6) fourQueues sampleMessage keyUser7 =
      .returned (queueNo 2) :=
  ⟨⟨by decide, by decide⟩, by decide,
    (select_by_hash (fun _ => 6) fourQueues sampleMessage keyUser7 (by decide) (by decide)).2.2.2.1,
    by decide⟩

/-- C8, counterexample: with an empty candidate list the selector does not end in an
`InvalidArgument` error; it takes a remainder modulo zero, which is undefined. -/
theorem select_empty_no_error :
    SelectMessageQueueInner.select (fun _ => 6) [] sampleMessage keyUser7 =
      .undefinedBehaviour ∧
    SelectMessageQueueInner.select (fun _ => 6) [] sampleMessage keyUser7 ≠
      .raised "InvalidArgument" := by
  decide

/-- C8, as amended: for every sharding key, `SelectMessageQueueInner::select` raises no
error at all, for an empty or a non-empty candidate list; with an empty list its behaviour
is undefined (a remainder modulo zero), and it returns a queue exactly when the list is
non-empty. -/
theorem select_never_raises (hash : List Nat → Nat) (Q : List MQMessageQueue) (m : MQMessage)
    (k : List Nat) :
    (∀ e, SelectMessageQueueInner.select hash Q m k ≠ .raised e) ∧
    SelectMessageQueueInner.select hash [] m k = .undefinedBehaviour ∧
    ((∃ q, SelectMessageQueueInner.select hash Q m k = .returned q) ↔ Q ≠ []) := by
  have hempty : SelectMessageQueueInner.select hash [] m k = .undefinedBehaviour := by
    simp [SelectMessageQueueInner.select]
  by_cases hQ : Q = []
  · subst hQ
    rw [hempty]
    exact ⟨fun e h => (by cases h), rfl, by simp⟩
  · have hpos : 0 < Q.length := List.length_pos.mpr hQ
    have hlt : toSizeT (SelectMessageQueueInner.index hash Q k) % Q.length < Q.length :=
      Nat.mod_lt _ hpos
    have hsel : SelectMessageQueueInner.select hash Q m k = .returned (Q.get ⟨_, hlt⟩) := by
      unfold SelectMessageQueueInner.select
      rw [if_neg (by omega), List.getElem?_eq_getElem hlt]
      rfl
    rw [hsel]
    exact ⟨fun e h => (by cases h), hempty, by simp [hQ]⟩

/-! ## Claims on the facade operations: null arguments -/

/-- The entry points that check every required pointer: with one of them `NULL` they return
`NULL_POINTER`, make no call on the underlying producer, and leave the last-error slot and
the result record as they were (the world and `*result` are unchanged). -/
theorem null_argument_rejected (H : CHeaders) (P : DefaultMQProducer σ) (w : World σ)
    (producer : Option Unit) (msg : Option MQMessage) (batch : Option (List MQMessage))
    (result : Option CSendResult) (succ fail sel : Option Nat) (arg key : Option (List Nat))
    (n : Int) :
    ((producer = none ∨ msg = none ∨ result = none) →
      SendMessageSync H P producer msg result w =
        { ret := .returned .NULL_POINTER, world := w, result := result }) ∧
    ((producer = none ∨ batch = none ∨ result = none) →
      SendBatchMessage H P producer batch result w =
        { ret := .returned .NULL_POINTER, world := w, result := result }) ∧
    ((producer = none ∨ msg = none ∨ succ = none ∨ fail = none) →
      SendMessageAsync P producer msg succ fail w =
        { ret := .returned .NULL_POINTER, world := w }) ∧
    ((producer = none ∨ msg = none ∨ succ = none ∨ fail = none) →
      SendAsync P producer msg succ fail arg w =
        { ret := .returned .NULL_POINTER, world := w }) ∧
    ((producer = none ∨ msg = none) →
      SendMessageOneway P producer msg w = { ret := .returned .NULL_POINTER, world := w }) ∧
    ((producer = none ∨ msg = none) →
      SendMessageOnewayOrderly P producer msg sel arg w =
        { ret := .returned .NULL_POINTER, world := w }) ∧
    ((producer = none ∨ msg = none ∨ sel = none ∨ succ = none ∨ fail = none) →
      SendMessageOrderlyAsync P producer msg sel arg succ fail w =
        { ret := .returned .NULL_POINTER, world := w }) ∧
    ((producer = none ∨ msg = none ∨ sel = none ∨ arg = none ∨ result = none) →
      SendMessageOrderly H P producer msg sel arg n result w =
        { ret := .returned .NULL_POINTER, world := w, result := result }) ∧
    ((producer = none ∨ msg = none ∨ key = none ∨ result = none) →
      SendMessageOrderlyByShardingKey H P producer msg key result w =
        { ret := .returned .NULL_POINTER, world := w, result := result }) := by
  refine ⟨?_, ?_, ?_, ?_, ?_, ?_, ?_, ?_, ?_⟩
  · intro h
    rcases producer with _ | _ <;> rcases msg with _ | _ <;> rcases result with _ | _ <;>
      simp_all [SendMessageSync]
  · intro h
    rcases producer with _ | _ <;> rcases batch with _ | _ <;> rcases result with _ | _ <;>
      simp_all [SendBatchMessage]
  · intro h
    rcases producer with _ | _ <;> rcases msg with _ | _ <;> rcases succ with _ | _ <;>
      rcases fail with _ | _ <;> simp_all [SendMessageAsync]
  · intro h
    rcases producer with _ | _ <;> rcases msg with _ | _ <;> rcases succ with _ | _ <;>
      rcases fail with _ | _ <;> simp_all [SendAsync]
  · intro h
    rcases producer with _ | _ <;> rcases msg with _ | _ <;> simp_all [SendMessageOneway]
  · intro h
    rcases producer with _ | _ <;> rcases msg with _ | _ <;>
      simp_all [SendMessageOnewayOrderly]
  · intro h
    rcases producer with _ | _ <;> rcases msg with _ | _ <;> rcases sel with _ | _ <;>
      rcases succ with _ | _ <;> rcases fail with _ | _ <;>
      simp_all [SendMessageOrderlyAsync]
  · intro h
    rcases producer with _ | _ <;> rcases msg with _ | _ <;> rcases sel with _ | _ <;>
      rcases arg with _ | _ <;> rcases result with _ | _ <;> simp_all [SendMessageOrderly]
  · intro h
    rcases producer with _ | _ <;> rcases msg with _ | _ <;> rcases key with _ | _ <;>
      rcases result with _ | _ <;> simp_all [SendMessageOrderlyByShardingKey]

/-- `SendMessageOnewayOrderly` with a non-null handle and message makes its call on the
underlying producer whatever the `selector` pointer is, and never returns `NULL_POINTER`. -/
theorem SendMessageOnewayOrderly_forwards (P : DefaultMQProducer σ) (w : World σ)
    (m : MQMessage) (selector : Option Nat) (arg : Option (List Nat)) :
    (SendMessageOnewayOrderly P (some ()) (some m) selector arg w).ret ≠
      .returned .NULL_POINTER ∧
    (SendMessageOnewayOrderly P (some ()) (some m) selector arg w).world.trace =
      w.trace ++ [.sendOnewaySelect m (.callback selector) arg] := by
  cases h : (P.invoke (.sendOnewaySelect m (.callback selector) arg) w.producer).2 <;>
    simp [SendMessageOnewayOrderly, h, World.call, World.setErr]

/-- C1, at the failing input: `SendMessageOnewayOrderly` called with a valid handle, a valid
message and a `NULL` selector function. Against every underlying producer the call is
forwarded (with a selector object wrapping the null function pointer) and the code returned
is not `NULL_POINTER`; with a producer that accepts the call the code is `OK`, and with one
that raises, the last-error slot is written as well. -/
theorem onewayOrderly_null_selector_not_rejected (P : DefaultMQProducer σ) (w : World σ)
    (arg : Option (List Nat)) :
    (SendMessageOnewayOrderly P (some ()) (some sampleMessage) none arg w).ret ≠
      .returned .NULL_POINTER ∧
    (SendMessageOnewayOrderly P (some ()) (some sampleMessage) none arg w).world.trace =
      w.trace ++ [.sendOnewaySelect sampleMessage (.callback none) arg] ∧
    SendMessageOnewayOrderly (acceptingProducer sampleSendResult) (some ()) (some sampleMessage)
        none none freshWorld =
      { ret := .returned .OK,
        world := { producer := 1, lastErr := "",
                   trace := [.sendOnewaySelect sampleMessage (.callback none) none] } } ∧
    SendMessageOnewayOrderly (raisingProducer "no selector") (some ()) (some sampleMessage)
        none none freshWorld =
      { ret := .returned .PRODUCER_SEND_ONEWAY_FAILED,
        world := { producer := 1, lastErr := "no selector",
                   trace := [.sendOnewaySelect sampleMessage (.callback none) none] } } := by
  have h := SendMessageOnewayOrderly_forwards P w sampleMessage none arg
  exact ⟨h.1, h.2, by decide, by decide⟩

/-! ## Claims on the facade operations: a raising underlying call -/

/-- The four synchronous sends whose `catch` clause calls `setErr`: when the underlying send
raises with message `what`, they store `what` in the last-error slot, return their failure
code and leave the result record as it was. -/
theorem sync_failure_recorded (H : CHeaders) (P : DefaultMQProducer σ) (w : World σ)
    (m : MQMessage) (cb : Nat) (sel : Option Nat) (arg : Option (List Nat)) (a key : List Nat)
    (n : Int) (r : CSendResult) (what : String) :
    ((P.invokeSend (.send m) w.producer).2 = .error what →
      (SendMessageSync H P (some ()) (some m) (some r) w).ret =
          .returned .PRODUCER_SEND_SYNC_FAILED ∧
        (SendMessageSync H P (some ()) (some m) (some r) w).world.lastErr = what ∧
        (SendMessageSync H P (some ()) (some m) (some r) w).result = some r) ∧
    ((P.invoke (.sendOnewaySelect m (.callback sel) arg) w.producer).2 = .error what →
      (SendMessageOnewayOrderly P (some ()) (some m) sel arg w).ret =
          .returned .PRODUCER_SEND_ONEWAY_FAILED ∧
        (SendMessageOnewayOrderly P (some ()) (some m) sel arg w).world.lastErr = what) ∧
    ((P.invokeSend (.sendSelect m (.callback (some cb)) (some a)) w.producer).2 = .error what →
      (SendMessageOrderly H P (some ()) (some m) (some cb) (some a) n (some r) w).ret =
          .returned .PRODUCER_SEND_ORDERLY_FAILED ∧
        (SendMessageOrderly H P (some ()) (some m) (some cb) (some a) n (some r) w).world.lastErr
          = what ∧
        (SendMessageOrderly H P (some ()) (some m) (some cb) (some a) n (some r) w).result =
          some r) ∧
    ((P.invokeSend (.sendSelectRetry m .inner (some key) 3) w.producer).2 = .error what →
      (SendMessageOrderlyByShardingKey H P (some ()) (some m) (some key) (some r) w).ret =
          .returned .PRODUCER_SEND_ORDERLY_FAILED ∧
        (SendMessageOrderlyByShardingKey H P (some ()) (some m) (some key) (some r) w).world.lastErr
          = what ∧
        (SendMessageOrderlyByShardingKey H P (some ()) (some m) (some key) (some r) w).result =
          some r) := by
  refine ⟨fun h => ?_, fun h => ?_, fun h => ?_, fun h => ?_⟩
  · simp [SendMessageSync, h, World.call, World.setErr]
  · simp [SendMessageOnewayOrderly, h, World.call, World.setErr]
  · simp [SendMessageOrderly, h, World.call, World.setErr]
  · simp [SendMessageOrderlyByShardingKey, h, World.call, World.setErr]

/-- The last-error slot is the same before and after `SendBatchMessage` and
`SendMessageOneway`, for every underlying producer and all arguments. -/
theorem batch_and_oneway_keep_lastErr (H : CHeaders) (P : DefaultMQProducer σ) (w : World σ)
    (producer : Option Unit) (msg : Option MQMessage) (batch : Option (List MQMessage))
    (result : Option CSendResult) :
    (SendBatchMessage H P producer batch result w).world.lastErr = w.lastErr ∧
    (SendMessageOneway P producer msg w).world.lastErr = w.lastErr := by
  constructor
  · rcases producer with _ | _ <;> rcases batch with _ | b <;> rcases result with _ | r <;>
      try simp [SendBatchMessage]
    cases h : (P.invokeSend (.sendBatch b) w.producer).2 <;> simp [h, World.call]
  · rcases producer with _ | _ <;> rcases msg with _ | m <;> try simp [SendMessageOneway]
    cases h : (P.invoke (.sendOneway m) w.producer).2 <;> simp [h, World.call]

/-- C2, at the failing inputs: `SendBatchMessage` and `SendMessageOneway` called with non-null
arguments on a producer whose send raises with the message `broker down`, the last-error
slot being empty before. Each returns its failure code (`PRODUCER_SEND_SYNC_FAILED`,
`PRODUCER_SEND_ONEWAY_FAILED`), the call was made, and the last-error slot is still empty:
the message `broker down` is not stored. -/
theorem batch_and_oneway_drop_error_message :
    SendBatchMessage smallHeaders (raisingProducer "broker down") (some ())
        (some [sampleMessage, sampleMessage]) (some (dirtyResult 8)) freshWorld =
      { ret := .returned .PRODUCER_SEND_SYNC_FAILED,
        world := { producer := 1, lastErr := "",
                   trace := [.sendBatch [sampleMessage, sampleMessage]] },
        result := some (dirtyResult 8) } ∧
    SendMessageOneway (raisingProducer "broker down") (some ()) (some sampleMessage) freshWorld =
      { ret := .returned .PRODUCER_SEND_ONEWAY_FAILED,
        world := { producer := 1, lastErr := "", trace := [.sendOneway sampleMessage] } } ∧
    (SendMessageSync smallHeaders (raisingProducer "broker down") (some ())
        (some sampleMessage) (some (dirtyResult 8)) freshWorld).world.lastErr = "broker down" := by
  decide

/-- The operations whose call on the underlying producer stands in a `try` block never let
an exception out: what they end with is never `raised`. -/
theorem guarded_operations_return (H : CHeaders) (P : DefaultMQProducer σ) (w : World σ)
    (producer : Option Unit) (msg : Option MQMessage) (batch : Option (List MQMessage))
    (result : Option CSendResult) (sel : Option Nat) (arg key : Option (List Nat)) (n : Int)
    (e : String) :
    (StartProducer P producer w).ret ≠ .raised e ∧
    (SendMessageSync H P producer msg result w).ret ≠ .raised e ∧
    (SendBatchMessage H P producer batch result w).ret ≠ .raised e ∧
    (SendMessageOneway P producer msg w).ret ≠ .raised e ∧
    (SendMessageOnewayOrderly P producer msg sel arg w).ret ≠ .raised e ∧
    (SendMessageOrderly H P producer msg sel arg n result w).ret ≠ .raised e ∧
    (SendMessageOrderlyByShardingKey H P producer msg key result w).ret ≠ .raised e := by
  refine ⟨?_, ?_, ?_, ?_, ?_, ?_, ?_⟩
  · rcases producer with _ | _ <;> try simp [StartProducer]
    cases h : (P.invoke .start w.producer).2 <;> simp [h]
  · rcases producer with _ | _ <;> rcases msg with _ | m <;> rcases result with _ | r <;>
      try simp [SendMessageSync]
    cases h : (P.invokeSend (.send m) w.producer).2 <;> simp [h]
  · rcases producer with _ | _ <;> rcases batch with _ | b <;> rcases result with _ | r <;>
      try simp [SendBatchMessage]
    cases h : (P.invokeSend (.sendBatch b) w.producer).2 <;> simp [h]
  · rcases producer with _ | _ <;> rcases msg with _ | m <;> try simp [SendMessageOneway]
    cases h : (P.invoke (.sendOneway m) w.producer).2 <;> simp [h]
  · rcases producer with _ | _ <;> rcases msg with _ | m <;>
      try simp [SendMessageOnewayOrderly]
    cases h : (P.invoke (.sendOnewaySelect m (.callback sel) arg) w.producer).2 <;> simp [h]
  · rcases producer with _ | _ <;> rcases msg with _ | m <;> rcases sel with _ | cb <;>
      rcases arg with _ | a <;> rcases result with _ | r <;> try simp [SendMessageOrderly]
    cases h : (P.invokeSend (.sendSelect m (.callback (some cb)) (some a)) w.producer).2 <;>
      simp [h]
  · rcases producer with _ | _ <;> rcases msg with _ | m <;> rcases key with _ | k <;>
      rcases result with _ | r <;> try simp [SendMessageOrderlyByShardingKey]
    cases h : (P.invokeSend (.sendSelectRetry m .inner (some k) 3) w.producer).2 <;> simp [h]

/-- An operation of the unguarded shape lets the exception of the underlying call out. -/
theorem forwardUnguarded_propagates (P : DefaultMQProducer σ) (w : World σ) (c : ProducerCall)
    (what : String) (h : (P.invoke c w.producer).2 = .error what) :
    (forwardUnguarded P (some ()) c w).ret = .raised what := by
  simp [forwardUnguarded, h]

/-- C3, at the failing inputs: on a producer whose calls raise with the message `boom`,
`ShutdownProducer`, the setters and the three asynchronous sends, called with non-null
arguments, do not end with a code: the raised error leaves the operation, while
`StartProducer` on the same producer returns `PRODUCER_START_FAILED`. -/
theorem unguarded_operations_propagate :
    (ShutdownProducer (raisingProducer "boom") (some ()) freshWorld).ret = .raised "boom" ∧
    (SetProducerNameServerAddress (raisingProducer "boom") (some ()) [49, 50, 55] freshWorld).ret
      = .raised "boom" ∧
    (SetProducerGroupName (raisingProducer "boom") (some ()) [71, 49] freshWorld).ret
      = .raised "boom" ∧
    (SetProducerInstanceName (raisingProducer "boom") (some ()) [105] freshWorld).ret
      = .raised "boom" ∧
    (SetProducerSendMsgTimeout (raisingProducer "boom") (some ()) 3000 freshWorld).ret
      = .raised "boom" ∧
    (SetProducerCompressMsgBodyOverHowmuch (raisingProducer "boom") (some ()) 4096 freshWorld).ret
      = .raised "boom" ∧
    (SetProducerCompressLevel (raisingProducer "boom") (some ()) 5 freshWorld).ret
      = .raised "boom" ∧
    (SetProducerMaxMessageSize (raisingProducer "boom") (some ()) 1024 freshWorld).ret
      = .raised "boom" ∧
    (SendMessageAsync (raisingProducer "boom") (some ()) (some sampleMessage) (some 1) (some 2)
        freshWorld).ret = .raised "boom" ∧
    (SendAsync (raisingProducer "boom") (some ()) (some sampleMessage) (some 1) (some 2) none
        freshWorld).ret = .raised "boom" ∧
    (SendMessageOrderlyAsync (raisingProducer "boom") (some ()) (some sampleMessage) (some 3)
        none (some 1) (some 2) freshWorld).ret = .raised "boom" ∧
    (StartProducer (raisingProducer "boom") (some ()) freshWorld).ret =
      .returned .PRODUCER_START_FAILED := by
  decide

/-! ## Claims on the facade operations: lifecycle and retry count -/

/-- C9, counterexample: on a producer that accepts every call, a second `StartProducer` on
the handle that was already started returns `OK` again and is forwarded again (two `start`
calls in the trace), and `SendMessageSync` on a handle that was never started returns `OK`
after invoking the underlying send. -/
theorem lifecycle_not_checked :
    (StartProducer (acceptingProducer sampleSendResult) (some ()) freshWorld).ret =
      .returned .OK ∧
    StartProducer (acceptingProducer sampleSendResult) (some ())
        (StartProducer (acceptingProducer sampleSendResult) (some ()) freshWorld).world =
      { ret := .returned .OK,
        world := { producer := 2, lastErr := "", trace := [.start, .start] } } ∧
    (SendMessageSync smallHeaders (acceptingProducer sampleSendResult) (some ())
        (some sampleMessage) (some (dirtyResult 8)) freshWorld).ret = .returned .OK ∧
    (SendMessageSync smallHeaders (acceptingProducer sampleSendResult) (some ())
        (some sampleMessage) (some (dirtyResult 8)) freshWorld).world.trace =
      [.send sampleMessage] := by
  decide

/-- C9, as amended: the facade keeps no lifecycle state. For every producer handle and every
state of the underlying producer, `StartProducer` forwards `start()` and returns `OK` when
it returns and `PRODUCER_START_FAILED` when it raises, and every send entry point called
with non-null arguments makes exactly its one call on the underlying producer; no call is
rejected on account of earlier calls. -/
theorem operations_always_forwarded (H : CHeaders) (P : DefaultMQProducer σ) (w : World σ)
    (m : MQMessage) (b : List MQMessage) (s f cb : Nat) (sel : Option Nat)
    (arg usr : Option (List Nat)) (a key : List Nat) (n : Int) (r : CSendResult) :
    ((StartProducer P (some ()) w).world.trace = w.trace ++ [.start] ∧
      (StartProducer P (some ()) w).ret =
        (match (P.invoke .start w.producer).2 with
          | .ok _ => .returned .OK
          | .error _ => .returned .PRODUCER_START_FAILED)) ∧
    (SendMessageSync H P (some ()) (some m) (some r) w).world.trace = w.trace ++ [.send m] ∧
    (SendBatchMessage H P (some ()) (some b) (some r) w).world.trace =
      w.trace ++ [.sendBatch b] ∧
    (SendMessageAsync P (some ()) (some m) (some s) (some f) w).world.trace =
      w.trace ++ [.sendAsync m (.cSendCallback s f)] ∧
    (SendAsync P (some ()) (some m) (some s) (some f) usr w).world.trace =
      w.trace ++ [.sendAsync m (.cOnSendCallback s f m usr)] ∧
    (SendMessageOneway P (some ()) (some m) w).world.trace = w.trace ++ [.sendOneway m] ∧
    (SendMessageOnewayOrderly P (some ()) (some m) sel arg w).world.trace =
      w.trace ++ [.sendOnewaySelect m (.callback sel) arg] ∧
    (SendMessageOrderlyAsync P (some ()) (some m) (some cb) arg (some s) (some f) w).world.trace =
      w.trace ++ [.sendSelectAsync m (.callback (some cb)) arg (.cSendCallback s f)] ∧
    (SendMessageOrderly H P (some ()) (some m) (some cb) (some a) n (some r) w).world.trace =
      w.trace ++ [.sendSelect m (.callback (some cb)) (some a)] ∧
    (SendMessageOrderlyByShardingKey H P (some ()) (some m) (some key) (some r) w).world.trace =
      w.trace ++ [.sendSelectRetry m .inner (some key) 3] := by
  refine ⟨⟨?_, ?_⟩, ?_, ?_, ?_, ?_, ?_, ?_, ?_, ?_, ?_⟩
  · cases h : (P.invoke .start w.producer).2 <;>
      simp [StartProducer, h, World.call, World.setErr]
  · cases h : (P.invoke .start w.producer).2 <;> simp [StartProducer, h]
  · cases h : (P.invokeSend (.send m) w.producer).2 <;>
      simp [SendMessageSync, h, World.call, World.setErr]
  · cases h : (P.invokeSend (.sendBatch b) w.producer).2 <;>
      simp [SendBatchMessage, h, World.call, World.setErr]
  · cases h : (P.invoke (.sendAsync m (.cSendCallback s f)) w.producer).2 <;>
      simp [SendMessageAsync, h, World.call, World.setErr]
  · cases h : (P.invoke (.sendAsync m (.cOnSendCallback s f m usr)) w.producer).2 <;>
      simp [SendAsync, h, World.call, World.setErr]
  · cases h : (P.invoke (.sendOneway m) w.producer).2 <;>
      simp [SendMessageOneway, h, World.call, World.setErr]
  · exact (SendMessageOnewayOrderly_forwards P w m sel arg).2
  · cases h : (P.invoke (.sendSelectAsync m (.callback (some cb)) arg (.cSendCallback s f))
        w.producer).2 <;>
      simp [SendMessageOrderlyAsync, h, World.call, World.setErr]
  · cases h : (P.invokeSend (.sendSelect m (.callback (some cb)) (some a)) w.producer).2 <;>
      simp [SendMessageOrderly, h, World.call, World.setErr]
  · cases h : (P.invokeSend (.sendSelectRetry m .inner (some key) 3) w.producer).2 <;>
      simp [SendMessageOrderlyByShardingKey, h, World.call, World.setErr]

/-- C10: `SendMessageOrderly` ignores `autoRetryTimes`: for all arguments, null or not, and
any two values of `autoRetryTimes`, the return code, the world afterwards (hence the call
issued to the underlying producer) and the Result Record are the same; the call it issues
carries no retry count, and neither does the call of any other send entry point, except
`SendMessageOrderlyByShardingKey`, whose call carries the retry count 3. -/
theorem orderly_ignores_autoRetryTimes (H : CHeaders) (P : DefaultMQProducer σ) (w : World σ)
    (producer : Option Unit) (msg : Option MQMessage) (batch : Option (List MQMessage))
    (callback succ fail : Option Nat) (arg usr : Option (List Nat))
    (result : Option CSendResult) (n1 n2 : Int)
    (m : MQMessage) (cb : Nat) (a key : List Nat) (r : CSendResult) :
    SendMessageOrderly H P producer msg callback arg n1 result w =
      SendMessageOrderly H P producer msg callback arg n2 result w ∧
    (SendMessageOrderly H P (some ()) (some m) (some cb) (some a) n1 (some r) w).world.trace =
      w.trace ++ [.sendSelect m (.callback (some cb)) (some a)] ∧
    (SendMessageOrderlyByShardingKey H P (some ()) (some m) (some key) (some r) w).world.trace =
      w.trace ++ [.sendSelectRetry m .inner (some key) 3] ∧
    ProducerCall.retryTimes (.sendSelectRetry m .inner (some key) 3) = some 3 ∧
    NoRetryCount w (SendMessageOrderly H P producer msg callback arg n1 result w).world ∧
    NoRetryCount w (SendMessageSync H P producer msg result w).world ∧
    NoRetryCount w (SendBatchMessage H P producer batch result w).world ∧
    NoRetryCount w (SendMessageAsync P producer msg succ fail w).world ∧
    NoRetryCount w (SendAsync P producer msg succ fail usr w).world ∧
    NoRetryCount w (SendMessageOneway P producer msg w).world ∧
    NoRetryCount w (SendMessageOnewayOrderly P producer msg callback arg w).world ∧
    NoRetryCount w (SendMessageOrderlyAsync P producer msg callback arg succ fail w).world := by
  have hnil : ∀ v : World σ, v = w → NoRetryCount w v := fun v hv =>
    ⟨[], by simp [hv], by simp⟩
  have hone : ∀ (v : World σ) (c : ProducerCall), v.trace = w.trace ++ [c] →
      ProducerCall.retryTimes c = none → NoRetryCount w v := fun v c hv hc =>
    ⟨[c], hv, by simpa using hc⟩
  refine ⟨rfl, ?_, ?_, rfl, ?_, ?_, ?_, ?_, ?_, ?_, ?_, ?_⟩
  · cases h : (P.invokeSend (.sendSelect m (.callback (some cb)) (some a)) w.producer).2 <;>
      simp [SendMessageOrderly, h, World.call, World.setErr]
  · cases h : (P.invokeSend (.sendSelectRetry m .inner (some key) 3) w.producer).2 <;>
      simp [SendMessageOrderlyByShardingKey, h, World.call, World.setErr]
  · rcases producer with _ | _ <;> rcases msg with _ | m0 <;> rcases callback with _ | c0 <;>
      rcases arg with _ | a0 <;> rcases result with _ | r0 <;>
      try (apply hnil; simp [SendMessageOrderly]; done)
    refine hone _ (.sendSelect m0 (.callback (some c0)) (some a0)) ?_ rfl
    cases h : (P.invokeSend (.sendSelect m0 (.callback (some c0)) (some a0)) w.producer).2 <;>
      simp [SendMessageOrderly, h, World.call, World.setErr]
  · rcases producer with _ | _ <;> rcases msg with _ | m0 <;> rcases result with _ | r0 <;>
      try (apply hnil; simp [SendMessageSync]; done)
    refine hone _ (.send m0) ?_ rfl
    cases h : (P.invokeSend (.send m0) w.producer).2 <;>
      simp [SendMessageSync, h, World.call, World.setErr]
  · rcases producer with _ | _ <;> rcases batch with _ | b0 <;> rcases result with _ | r0 <;>
      try (apply hnil; simp [SendBatchMessage]; done)
    refine hone _ (.sendBatch b0) ?_ rfl
    cases h : (P.invokeSend (.sendBatch b0) w.producer).2 <;>
      simp [SendBatchMessage, h, World.call, World.setErr]
  · rcases producer with _ | _ <;> rcases msg with _ | m0 <;> rcases succ with _ | s0 <;>
      rcases fail with _ | f0 <;> try (apply hnil; simp [SendMessageAsync]; done)
    refine hone _ (.sendAsync m0 (.cSendCallback s0 f0)) ?_ rfl
    cases h : (P.invoke (.sendAsync m0 (.cSendCallback s0 f0)) w.producer).2 <;>
      simp [SendMessageAsync, h, World.call, World.setErr]
  · rcases producer with _ | _ <;> rcases msg with _ | m0 <;> rcases succ with _ | s0 <;>
      rcases fail with _ | f0 <;> try (apply hnil; simp [SendAsync]; done)
    refine hone _ (.sendAsync m0 (.cOnSendCallback s0 f0 m0 usr)) ?_ rfl
    cases h : (P.invoke (.sendAsync m0 (.cOnSendCallback s0 f0 m0 usr)) w.producer).2 <;>
      simp [SendAsync, h, World.call, World.setErr]
  · rcases producer with _ | _ <;> rcases msg with _ | m0 <;>
      try (apply hnil; simp [SendMessageOneway]; done)
    refine hone _ (.sendOneway m0) ?_ rfl
    cases h : (P.invoke (.sendOneway m0) w.producer).2 <;>
      simp [SendMessageOneway, h, World.call, World.setErr]
  · rcases producer with _ | _ <;> rcases msg with _ | m0 <;>
      try (apply hnil; simp [SendMessageOnewayOrderly]; done)
    exact hone _ (.sendOnewaySelect m0 (.callback callback) arg)
      (SendMessageOnewayOrderly_forwards P w m0 callback arg).2 rfl
  · rcases producer with _ | _ <;> rcases msg with _ | m0 <;> rcases callback with _ | c0 <;>
      rcases succ with _ | s0 <;> rcases fail with _ | f0 <;>
      try (apply hnil; simp [SendMessageOrderlyAsync]; done)
    refine hone _ (.sendSelectAsync m0 (.callback (some c0)) arg (.cSendCallback s0 f0)) ?_ rfl
    cases h : (P.invoke (.sendSelectAsync m0 (.callback (some c0)) arg (.cSendCallback s0 f0))
        w.producer).2 <;>
      simp [SendMessageOrderlyAsync, h, World.call, World.setErr]

end CProducer
